import Mathlib

/- Verification of the VULCAN controller (vulcanController.py) against its
   design specification.

   Shallow embedding conventions:
   * a Python string is a `List Char` (`Str`);
   * a file's content is its list of lines;
   * a Python dict is an insertion-ordered association list (`Dict`);
   * Python `eval` on a literal is an abstract partial interpreter
     `pyEval : Str → Option V` (a parameter of the dedup engine);
   * an uncaught Python exception is the `none` / `.crash` outcome;
   * Python floats are modelled by exact rationals (`ℚ`). -/

abbrev Str := List Char

/-- Characters removed by Python `str.strip` (the whitespace that occurs in the
controller's configuration and log files). -/
def pySpace (c : Char) : Bool :=
  c == ' ' || c == '\t' || c == '\n' || c == '\r'

/-- Model of Python `s.strip()`: remove leading and trailing whitespace. -/
def pyStrip (l : Str) : Str :=
  ((l.dropWhile pySpace).reverse.dropWhile pySpace).reverse

/-- Model of Python `s.split(sep)` for a one-character separator `sep`. -/
def splitOnChar (sep : Char) : Str → List Str
  | [] => [[]]
  | c :: cs =>
    match splitOnChar sep cs with
    | [] => [[c]]
    | g :: gs => if c = sep then [] :: g :: gs else (c :: g) :: gs

/-- Fuel-indexed scan returning the suffix after the last (non-overlapping,
left-to-right) occurrence of `sep`, or `none` if `sep` does not occur.  The
fuel is always instantiated with the length of the scanned list, which
suffices because each step consumes at least one character. -/
def afterLastOccAux (sep : Str) : Nat → Str → Option Str
  | _, [] => none
  | 0, _ => none
  | n + 1, c :: cs =>
    if sep.isPrefixOf (c :: cs) then
      let tail := (c :: cs).drop sep.length
      some ((afterLastOccAux sep n tail).getD tail)
    else
      afterLastOccAux sep n cs

/-- Model of Python `s.split(sep)[-1]` for a multi-character separator: the
text after the last occurrence of `sep`, or all of `s` when `sep` is absent. -/
def splitLastOn (sep : Str) (l : Str) : Str :=
  if sep.isEmpty then l else (afterLastOccAux sep l.length l).getD l

/-- The `directions` enum of vulcanController.py. -/
inductive directions where
  | IMPORT
  | EXPORT
deriving DecidableEq

/-- Python values that flow through `translateCol`: VULCAN-internal digit
strings, external integer tuples, and a bare integer (what `eval "(d)"`
yields for a one-character column). -/
inductive PyColVal where
  | str (s : Str)
  | tup (t : List Int)
  | intv (n : Int)
deriving DecidableEq

/-- Model of `vulcanController.translateCol`.
`EXPORT` evaluates `f"({','.join(col)})"`: joining a string yields its
characters comma-separated, and `eval` succeeds exactly when every character
is a digit (otherwise a NameError/SyntaxError is raised, modelled `none`);
a single character evaluates to a bare integer, not a tuple.  Joining a tuple
of integers raises TypeError (`str.join` accepts only strings), modelled
`none`.  `IMPORT` evaluates `''.join(col)`: the identity on strings, and a
TypeError (`none`) on integer tuples and integers. -/
def translateCol : directions → PyColVal → Option PyColVal
  | .EXPORT, .str s =>
    if s.all Char.isDigit then
      match s with
      | [c] => some (.intv ((c.toNat : Int) - 48))
      | _ => some (.tup (s.map (fun c => (c.toNat : Int) - 48)))
    else none
  | .EXPORT, _ => none
  | .IMPORT, .str s => some (.str s)
  | .IMPORT, _ => none

/-- Model of `vulcanController.translatePressure`: VULCAN keeps pressure in
0.1 Pa, so import multiplies by 1e1 and export divides by 1e1. -/
def translatePressure : directions → ℚ → ℚ
  | .EXPORT, p => p / 10
  | .IMPORT, p => p * 10

/-- Model of `vulcanController.translateHeight`: VULCAN keeps height in
centimetres, so import multiplies by 1e2 and export divides by 1e2. -/
def translateHeight : directions → ℚ → ℚ
  | .EXPORT, h => h / 100
  | .IMPORT, h => h * 100

/-- Decimal digits of a natural number, as produced by Python `str`. -/
def natStr (n : Nat) : Str := Nat.toDigits 10 n

/-- Decimal representation of an integer, as produced by Python `str` inside
an f-string. -/
def intStr (n : Int) : Str :=
  if n < 0 then '-' :: Nat.toDigits 10 n.natAbs else Nat.toDigits 10 n.toNat

/-- Model of `vulcanController.generateColumns`: both nested loops range over
`range(n.world['atmosphereDim'][0])` (the first world dimension is read for
both axes), and each cell is rendered as `f'2{x}{y}'`. -/
def generateColumns (atmosphereDim : List Nat) : List Str :=
  (List.range (atmosphereDim.headD 0)).flatMap fun x =>
    (List.range (atmosphereDim.headD 0)).map fun y =>
      '2' :: (natStr x ++ natStr y)

/-- Modelled from the spec (claim C5): the rectangular grid of column IDs
`'2{x}{y}'` for every `x` in `[0, nx)` and `y` in `[0, ny)`. -/
def specGridColumns (nx ny : Nat) : List Str :=
  (List.range nx).flatMap fun x =>
    (List.range ny).map fun y =>
      '2' :: (natStr x ++ natStr y)

/-- Model of `vulcanController.nearestColumns`: read the three characters of
the column ID (an IndexError or a failing `int()` conversion is modelled
`none`), form the four unit-step neighbour strings with Python integer
arithmetic, and drop every string containing `'-'` (negative coordinates). -/
def nearestColumns (column : Str) : Option (List Str) :=
  match column.get? 0, column.get? 1, column.get? 2 with
  | some a, some b, some c =>
    if a.isDigit && b.isDigit && c.isDigit then
      let A : Int := (a.toNat : Int) - 48
      let B : Int := (b.toNat : Int) - 48
      let C : Int := (c.toNat : Int) - 48
      some (([intStr A ++ intStr (B + 1) ++ intStr C,
              intStr A ++ intStr (B - 1) ++ intStr C,
              intStr A ++ intStr B ++ intStr (C - 1),
              intStr A ++ intStr B ++ intStr (C + 1)]).filter
              (fun x => !x.contains '-'))
    else none
  | _, _, _ => none

/-- The encoding of a column with leading digit `k` and single-digit axis
coordinates `x`, `y` (the three-character IDs of claim C10). -/
def colEnc (k x y : Fin 10) : Str :=
  natStr k.val ++ natStr x.val ++ natStr y.val

/-- Modelled from the claim (C10): the axis-adjacent IDs obtained by a unit
step in exactly one axis with no negative coordinate. -/
def specAdjacent (k x y : Fin 10) : List Str :=
  [natStr k.val ++ natStr (x.val + 1) ++ natStr y.val]
    ++ (if 1 ≤ x.val then [natStr k.val ++ natStr (x.val - 1) ++ natStr y.val] else [])
    ++ (if 1 ≤ y.val then [natStr k.val ++ natStr x.val ++ natStr (y.val - 1)] else [])
    ++ [natStr k.val ++ natStr x.val ++ natStr (y.val + 1)]

/-- Model of the neighbour set used by `vulcanExport` for MISTRA:
`list(set(self.nearestColumns(column)).intersection(latestRunColumns))`,
the deduplicated neighbour list restricted to columns of the latest run. -/
def mistraNeighborSet (ns : List Str) (latestRunColumns : List Str) : List Str :=
  ns.dedup.filter (fun n => decide (n ∈ latestRunColumns))

/-- Model of the filter in `vulcanOutput`: `x.split(' ')[0] == 'Run'`. -/
def isRunLine (x : Str) : Bool :=
  decide ((splitOnChar ' ' x).headD [] = "Run".data)

/-- Model of the non-fresh branch of `vulcanController.vulcanOutput`: take the
last log line starting with `Run` (IndexError on an empty filter result is
modelled `none`), read the single character `runString[4]` (IndexError if the
line is shorter, ValueError if it is not a digit, both modelled `none`), and
produce `str(int(runString[4]) + 1) + '-'`. -/
def vulcanOutputRunID (logLines : List Str) : Option Str :=
  match (logLines.filter isRunLine).getLast? with
  | none => none
  | some runString =>
    match runString.get? 4 with
    | none => none
    | some c =>
      if c.isDigit then some (Nat.toDigits 10 (c.toNat - 48 + 1) ++ ['-'])
      else none

/-- Model of the per-column run-ID update in `runFullVulcan`:
`self.currentRunID.split('-')[0] + f'-{column}'`. -/
def columnRunID (currentRunID : Str) (column : Str) : Str :=
  (splitOnChar '-' currentRunID).headD [] ++ '-' :: column

/-- Model of the inbound override translation loop in `cfgVulcan`
(USE_LATEST_VUL, matching import column): for each key/value of the update
dictionary, a key containing `"Height"` is translated by
`translateHeight(IMPORT, ·)`, a key containing `"Pressure"` is translated —
as the source is written — also by `translateHeight(IMPORT, ·)`, and a key
containing neither keeps the `newValue` of the previous iteration (a NameError
on the very first such key, modelled `none`).  The result is the dictionary
written to the modify_atm side artifact. -/
def cfgVulcanTranslateOverrides : List (Str × ℚ) → Option ℚ → Option (List (Str × ℚ))
  | [], _ => some []
  | (key, value) :: rest, carry =>
    let newValue? :=
      if "Height".data <:+: key then some (translateHeight .IMPORT value)
      else if "Pressure".data <:+: key then some (translateHeight .IMPORT value)
      else carry
    match newValue? with
    | none => none
    | some nv => (cfgVulcanTranslateOverrides rest (some nv)).map (fun r => (key, nv) :: r)

/-- A Python dict keyed by variable names, as an insertion-ordered
association list (keys are unique: `dictInsert` updates in place). -/
abbrev Dict (V : Type) := List (Str × V)

/-- Model of Python `d[key] = value`: update the entry in place if the key is
present, otherwise append it. -/
def dictInsert {V : Type} (d : Dict V) (k : Str) (v : V) : Dict V :=
  if d.any (fun p => decide (p.1 = k)) then
    d.map (fun p => if p.1 = k then (k, v) else p)
  else d ++ [(k, v)]

/-- Model of Python `d[key]` / `d.get(key)`: the value of the first entry
with the given key. -/
def dictLookup {V : Type} : Dict V → Str → Option V
  | [], _ => none
  | (k', v) :: rest, k => if k' = k then some v else dictLookup rest k

/-- Model of Python `d.keys()` (insertion order). -/
def dictKeys {V : Type} (d : Dict V) : List Str :=
  d.map Prod.fst

/-- Model of Python `d.pop(key, None)`: remove the entry with the given key,
if any. -/
def dictPop {V : Type} (d : Dict V) (k : Str) : Dict V :=
  d.filter (fun p => decide (p.1 ≠ k))

/-- The line normalisation performed at the start of
`checkDupLinesToDict`: strip whitespace (`lines_1`), drop everything after
`#` (`lines_2`), drop empty lines (`lines_3`, Python `filter(None, ...)`),
and drop lines starting with `#` (`lines_4`). -/
def processLines (cfgFileLines : List Str) : List Str :=
  let lines1 := cfgFileLines.map pyStrip
  let lines2 := lines1.map (fun x => (splitOnChar '#' x).headD [])
  let lines3 := lines2.filter (fun x => !x.isEmpty)
  lines3.filter (fun x => x.headD ' ' != '#')

/-- The line loop of `checkDupLinesToDict`.  For each line,
`line.split('=')[1]` raises IndexError when the line has no `=` (outer
`none`: the exception escapes the function); `eval(value)` failing is caught
and makes the function return Python `False` (`some none`); otherwise the
typed value is assigned into the dict.  `pyEval` abstracts Python `eval` on
the stripped right-hand side. -/
def linesToDictGo {V : Type} (pyEval : Str → Option V) :
    List Str → Dict V → Option (Option (Dict V))
  | [], d => some (some d)
  | line :: rest, d =>
    let segs := splitOnChar '=' line
    match segs.get? 1 with
    | none => none
    | some vseg =>
      let key := pyStrip (segs.headD [])
      let value := pyStrip vseg
      match pyEval value with
      | none => some none
      | some v => linesToDictGo pyEval rest (dictInsert d key v)

/-- Model of `vulcanController.checkDupLinesToDict`: normalise the lines,
convert them to a dict (possibly raising, `none`, or returning Python
`False`, `some none`), then pop every ignore-list variable. -/
def checkDupLinesToDict {V : Type} (pyEval : Str → Option V)
    (cfgFileLines ignoreVarList : List Str) : Option (Option (Dict V)) :=
  match linesToDictGo pyEval (processLines cfgFileLines) [] with
  | none => none
  | some none => some none
  | some (some d) => some (some (ignoreVarList.foldl (fun d k => dictPop d k) d))

/-- The candidate artifact is well formed in the sense of the spec's
ConfigArtifact data model: every surviving (non-comment, non-empty) line is a
`name = value` assignment, so `line.split('=')[1]` exists. -/
def WFLines (cfgFileLines : List Str) : Prop :=
  ∀ l ∈ processLines cfgFileLines, (splitOnChar '=' l).get? 1 ≠ none

instance (cfgFileLines : List Str) : Decidable (WFLines cfgFileLines) := by
  unfold WFLines; infer_instance

/-- The state read by one `checkDup` call: whether a modify_atm side artifact
is pending; the raw lines of the VulcanCfgComparator ignore-list file; the
lines of the runtime log; the path and content of the freshly written
`vulcan_cfg.py`; the file system for the previously recorded artifact paths;
and the literal interpreter used for right-hand sides. -/
structure CheckDupEnv (V : Type) where
  modifyAtmExists : Bool
  comparatorLines : List Str
  logLines : List Str
  latestCfgFilePath : Str
  latestCfgLines : List Str
  fs : Str → List Str
  pyEval : Str → Option V

/-- Outcome of one `checkDup` call: an uncaught exception, Python `False`
(`Fresh`), or the pair `[previousCfgFilePath, latestCfgFilePath]`
(`Reuse`). -/
inductive CheckDupResult where
  | crash
  | fresh
  | reuse (previousCfgFilePath latestCfgFilePath : Str)
deriving DecidableEq

/-- Model of the log filter in `checkDup`: `x.split(':')[0] == 'CfgFilePath'`. -/
def isCfgPathLine (x : Str) : Bool :=
  decide ((splitOnChar ':' x).headD [] = "CfgFilePath".data)

/-- Model of the path extraction in `checkDup`:
`x.split('CfgFilePath: ')[-1].strip()`. -/
def cfgPathOf (x : Str) : Str :=
  pyStrip (splitLastOn ("CfgFilePath: ".data) x)

/-- The matching criterion of `checkDup` (its `statusFlag`): the key sets are
equal as sets, and values agree on every key of the previous dict. -/
def statusFlagB {V : Type} [DecidableEq V] (dP dL : Dict V) : Bool :=
  (((dictKeys dP).all (fun k => decide (k ∈ dictKeys dL)))
      && ((dictKeys dL).all (fun k => decide (k ∈ dictKeys dP))))
    && (dictKeys dP).all (fun k => decide (dictLookup dP k = dictLookup dL k))

/-- The scan over `previousCfgFilePaths` in `checkDup`.  Parsing a prior
artifact may raise (`.crash`).  The source then re-tests
`if not latestCfgFileVarDict` — the latest dict, not the one just parsed —
so when the prior parse returned Python `False`, control reaches
`set(previousCfgFileVarDict.keys())` and raises AttributeError (`.crash`).
A fully matching prior returns the pair immediately. -/
def checkDupLoop {V : Type} [DecidableEq V] (e : CheckDupEnv V)
    (ignoreVarList : List Str) (dLat : Dict V) : List Str → CheckDupResult
  | [] => .fresh
  | p :: rest =>
    match checkDupLinesToDict e.pyEval (e.fs p) ignoreVarList with
    | none => .crash
    | some prevRes =>
      if dLat.isEmpty then .fresh
      else
        match prevRes with
        | none => .crash
        | some dP =>
          if statusFlagB dP dLat then .reuse p e.latestCfgFilePath
          else checkDupLoop e ignoreVarList dLat rest

/-- Model of `vulcanController.checkDup`: return `Fresh` when a modify_atm
side artifact is pending; build the ignore list; collect the `CfgFilePath`
events of the log and return `Fresh` when there is exactly one; parse the
candidate `vulcan_cfg.py` (`Fresh` when it is falsy — a parse failure or an
empty dict); then scan all earlier recorded artifact paths. -/
def checkDup {V : Type} [DecidableEq V] (e : CheckDupEnv V) : CheckDupResult :=
  if e.modifyAtmExists then .fresh
  else
    let ignoreVarList := e.comparatorLines.map pyStrip
    let cfgFilePathAll := e.logLines.filter isCfgPathLine
    if cfgFilePathAll.length = 1 then .fresh
    else
      let previousCfgFilePaths := (cfgFilePathAll.map cfgPathOf).dropLast
      match checkDupLinesToDict e.pyEval e.latestCfgLines ignoreVarList with
      | none => .crash
      | some none => .fresh
      | some (some dL) =>
        if dL.isEmpty then .fresh
        else checkDupLoop e ignoreVarList dL previousCfgFilePaths

/-- Two parsed configuration maps are identical: every variable name is bound
to the same typed value (or unbound) in both.  This is the claim-side reading
of "same key set, pairwise-equal values". -/
def MapsIdentical {V : Type} (d1 d2 : Dict V) : Prop :=
  ∀ k, dictLookup d1 k = dictLookup d2 k

/-- A concrete literal interpreter for witnesses: decimal natural-number
literals. -/
def evalNat (s : Str) : Option Nat :=
  if s.isEmpty then none
  else if s.all Char.isDigit then
    some (s.foldl (fun n c => n * 10 + (c.toNat - 48)) 0)
  else none

/-- Concrete state refuting claim C1 as stated: the candidate and the single
recorded prior artifact both parse, and after removing the ignored variable
`seed` their maps are identical (both empty) — yet `checkDup` classifies
Fresh, because an empty comparison dict is falsy in Python. -/
def eC1cex : CheckDupEnv Nat where
  modifyAtmExists := false
  comparatorLines := ["seed".data]
  logLines := ["CfgFilePath: prior1".data, "CfgFilePath: latest".data]
  latestCfgFilePath := "vulcan_cfg.py".data
  latestCfgLines := ["seed = 3".data]
  fs := fun p => if p = "prior1".data then ["seed = 4".data] else []
  pyEval := evalNat

/-- Concrete state witnessing the amended claim C1: candidate and prior agree
on the non-ignored variable `a` and differ only in the ignored `seed`. -/
def eC1wit : CheckDupEnv Nat where
  modifyAtmExists := false
  comparatorLines := ["seed".data]
  logLines := ["CfgFilePath: prior1".data, "CfgFilePath: latest".data]
  latestCfgFilePath := "vulcan_cfg.py".data
  latestCfgLines := ["a = 1".data, "seed = 7".data]
  fs := fun p => if p = "prior1".data then ["a = 1".data, "seed = 9".data] else []
  pyEval := evalNat

/-- Concrete state exhibiting the fail-open bug of claim C2: the recorded
prior artifact contains the line `b = (` whose right-hand side cannot be
parsed as a literal, while the candidate parses fine. -/
def eC2 : CheckDupEnv Nat where
  modifyAtmExists := false
  comparatorLines := []
  logLines := ["CfgFilePath: prior1".data, "CfgFilePath: latest".data]
  latestCfgFilePath := "vulcan_cfg.py".data
  latestCfgLines := ["a = 1".data]
  fs := fun p => if p = "prior1".data then ["b = (".data] else []
  pyEval := evalNat

/-- Concrete state refuting the `run_num` scenario of claim C3: the candidate
differs from the recorded prior artifact only in the value of `run_num`
(which is on the ignore-list), yet the classification is Fresh, because both
artifacts reduce to the empty comparison dict. -/
def eC3cex : CheckDupEnv Nat where
  modifyAtmExists := false
  comparatorLines := ["run_num".data]
  logLines := ["CfgFilePath: prior1".data, "CfgFilePath: latest".data]
  latestCfgFilePath := "vulcan_cfg.py".data
  latestCfgLines := ["run_num = 2".data]
  fs := fun p => if p = "prior1".data then ["run_num = 1".data] else []
  pyEval := evalNat

/-- Concrete state witnessing the amended claim C3: candidate and prior carry
one non-ignored variable `x = 5` and differ only in the ignored `run_num`. -/
def eC3wit : CheckDupEnv Nat where
  modifyAtmExists := false
  comparatorLines := ["run_num".data]
  logLines := ["CfgFilePath: prior1".data, "CfgFilePath: latest".data]
  latestCfgFilePath := "vulcan_cfg.py".data
  latestCfgLines := ["x = 5".data, "run_num = 2".data]
  fs := fun p => if p = "prior1".data then ["x = 5".data, "run_num = 1".data] else []
  pyEval := evalNat

/-- Concrete state witnessing claim C9: a freshly created ledger holding
exactly one `CfgFilePath` event (the candidate's own). -/
def eC9wit : CheckDupEnv Nat where
  modifyAtmExists := false
  comparatorLines := ["run_num".data]
  logLines := ["Virgin Vulcan = False".data, "CfgFilePath: latest".data]
  latestCfgFilePath := "vulcan_cfg.py".data
  latestCfgLines := ["a = 1".data]
  fs := fun _ => []
  pyEval := evalNat

lemma dictKeys_nil {V : Type} : dictKeys ([] : Dict V) = [] := rfl

lemma dictKeys_cons {V : Type} (p : Str × V) (rest : Dict V) :
    dictKeys (p :: rest) = p.1 :: dictKeys rest := rfl

lemma dictLookup_nil {V : Type} (k : Str) : dictLookup ([] : Dict V) k = none := rfl

lemma dictLookup_cons {V : Type} (k' : Str) (v : V) (rest : Dict V) (k : Str) :
    dictLookup ((k', v) :: rest) k = if k' = k then some v else dictLookup rest k := rfl

lemma dictLookup_eq_none {V : Type} (d : Dict V) (k : Str) :
    dictLookup d k = none ↔ k ∉ dictKeys d := by
  induction d with
  | nil => simp [dictLookup_nil, dictKeys_nil]
  | cons p rest ih =>
    obtain ⟨k', v⟩ := p
    by_cases h : k' = k
    · subst h
      simp [dictLookup_cons, dictKeys_cons]
    · have h2 : k ≠ k' := fun hh => h hh.symm
      simp [dictLookup_cons, dictKeys_cons, h, h2, ih]

lemma mem_dictKeys_iff {V : Type} (d : Dict V) (k : Str) :
    k ∈ dictKeys d ↔ dictLookup d k ≠ none := by
  rw [Ne, dictLookup_eq_none, not_not]

lemma statusFlagB_iff {V : Type} [DecidableEq V] (dP dL : Dict V) :
    statusFlagB dP dL = true ↔ MapsIdentical dP dL := by
  constructor
  · intro h
    simp only [statusFlagB, Bool.and_eq_true, List.all_eq_true, decide_eq_true_eq] at h
    intro k
    by_cases hk : k ∈ dictKeys dP
    · exact h.2 k hk
    · have h1 : dictLookup dP k = none := (dictLookup_eq_none dP k).mpr hk
      have hk2 : k ∉ dictKeys dL := fun hmem => hk (h.1.2 k hmem)
      rw [h1, (dictLookup_eq_none dL k).mpr hk2]
  · intro h
    simp only [statusFlagB, Bool.and_eq_true, List.all_eq_true, decide_eq_true_eq]
    refine ⟨⟨?_, ?_⟩, fun k _ => h k⟩
    · intro k hk
      rw [mem_dictKeys_iff] at hk ⊢
      rw [← h k]; exact hk
    · intro k hk
      rw [mem_dictKeys_iff] at hk ⊢
      rw [h k]; exact hk

lemma isEmpty_congr {V : Type} {d1 d2 : Dict V} (h : MapsIdentical d1 d2) :
    d1.isEmpty = d2.isEmpty := by
  cases d1 with
  | nil =>
    cases d2 with
    | nil => rfl
    | cons p rest =>
      obtain ⟨k, v⟩ := p
      have hk := h k
      simp only [dictLookup_nil, dictLookup_cons, if_pos rfl] at hk
      exact Option.noConfusion hk
  | cons p rest =>
    obtain ⟨k, v⟩ := p
    cases d2 with
    | nil =>
      have hk := h k
      simp only [dictLookup_nil, dictLookup_cons, if_pos rfl] at hk
      exact Option.noConfusion hk
    | cons q rest2 => rfl

lemma statusFlagB_congr {V : Type} [DecidableEq V] (dP : Dict V) {dA dB : Dict V}
    (h : MapsIdentical dA dB) : statusFlagB dP dA = statusFlagB dP dB := by
  by_cases hm : MapsIdentical dP dB
  · rw [(statusFlagB_iff dP dB).mpr hm,
      (statusFlagB_iff dP dA).mpr (fun k => (hm k).trans (h k).symm)]
  · have h1 : statusFlagB dP dB = false :=
      Bool.eq_false_iff.mpr (fun hh => hm ((statusFlagB_iff dP dB).mp hh))
    have h2 : statusFlagB dP dA = false :=
      Bool.eq_false_iff.mpr
        (fun hh => hm (fun k => ((statusFlagB_iff dP dA).mp hh k).trans (h k)))
    rw [h1, h2]

lemma env_update_modifyAtm {V : Type} (e : CheckDupEnv V) (L2 : List Str) :
    ({ e with latestCfgLines := L2 } : CheckDupEnv V).modifyAtmExists = e.modifyAtmExists := rfl

lemma env_update_comparator {V : Type} (e : CheckDupEnv V) (L2 : List Str) :
    ({ e with latestCfgLines := L2 } : CheckDupEnv V).comparatorLines = e.comparatorLines := rfl

lemma env_update_logLines {V : Type} (e : CheckDupEnv V) (L2 : List Str) :
    ({ e with latestCfgLines := L2 } : CheckDupEnv V).logLines = e.logLines := rfl

lemma env_update_latestPath {V : Type} (e : CheckDupEnv V) (L2 : List Str) :
    ({ e with latestCfgLines := L2 } : CheckDupEnv V).latestCfgFilePath = e.latestCfgFilePath := rfl

lemma env_update_latestLines {V : Type} (e : CheckDupEnv V) (L2 : List Str) :
    ({ e with latestCfgLines := L2 } : CheckDupEnv V).latestCfgLines = L2 := rfl

lemma env_update_fs {V : Type} (e : CheckDupEnv V) (L2 : List Str) :
    ({ e with latestCfgLines := L2 } : CheckDupEnv V).fs = e.fs := rfl

lemma env_update_pyEval {V : Type} (e : CheckDupEnv V) (L2 : List Str) :
    ({ e with latestCfgLines := L2 } : CheckDupEnv V).pyEval = e.pyEval := rfl

lemma checkDup_eq {V : Type} [DecidableEq V] (e : CheckDupEnv V) :
    checkDup e =
      if e.modifyAtmExists then .fresh
      else if (e.logLines.filter isCfgPathLine).length = 1 then .fresh
      else
        match checkDupLinesToDict e.pyEval e.latestCfgLines (e.comparatorLines.map pyStrip) with
        | none => .crash
        | some none => .fresh
        | some (some dL) =>
          if dL.isEmpty then .fresh
          else
            checkDupLoop e (e.comparatorLines.map pyStrip) dL
              (((e.logLines.filter isCfgPathLine).map cfgPathOf).dropLast) := rfl

lemma checkDupLoop_nil {V : Type} [DecidableEq V] (e : CheckDupEnv V)
    (ign : List Str) (dLat : Dict V) : checkDupLoop e ign dLat [] = .fresh := rfl

lemma checkDupLoop_cons {V : Type} [DecidableEq V] (e : CheckDupEnv V)
    (ign : List Str) (dLat : Dict V) (p : Str) (rest : List Str) :
    checkDupLoop e ign dLat (p :: rest) =
      match checkDupLinesToDict e.pyEval (e.fs p) ign with
      | none => .crash
      | some prevRes =>
        if dLat.isEmpty then .fresh
        else
          match prevRes with
          | none => .crash
          | some dP =>
            if statusFlagB dP dLat then .reuse p e.latestCfgFilePath
            else checkDupLoop e ign dLat rest := rfl

lemma checkDup_two {V : Type} [DecidableEq V] (e : CheckDupEnv V) (l1 l2 p : Str)
    (dP dL : Dict V)
    (hAtm : e.modifyAtmExists = false)
    (hLog : e.logLines.filter isCfgPathLine = [l1, l2])
    (hp : cfgPathOf l1 = p)
    (hL : checkDupLinesToDict e.pyEval e.latestCfgLines (e.comparatorLines.map pyStrip)
            = some (some dL))
    (hP : checkDupLinesToDict e.pyEval (e.fs p) (e.comparatorLines.map pyStrip)
            = some (some dP))
    (hne : dL ≠ []) :
    checkDup e = if statusFlagB dP dL then .reuse p e.latestCfgFilePath else .fresh := by
  have hEmp : dL.isEmpty = false := by
    cases dL with
    | nil => exact absurd rfl hne
    | cons a b => rfl
  rw [checkDup_eq, hAtm, hLog, hL]
  simp only [Bool.false_eq_true, if_false, List.length_cons, List.length_nil, List.map_cons,
    List.map_nil, hp]
  have hlen : ¬ (0 + 1 + 1 = 1) := by omega
  rw [if_neg hlen]
  have hdrop : ([p, cfgPathOf l2] : List Str).dropLast = [p] := rfl
  rw [hdrop, checkDupLoop_cons, hP, hEmp]
  simp only [Bool.false_eq_true, if_false]
  rw [checkDupLoop_nil]

lemma checkDupLoop_congr {V : Type} [DecidableEq V] (e : CheckDupEnv V) (L2 : List Str)
    (ign : List Str) {dA dB : Dict V} (h : MapsIdentical dA dB) (ps : List Str) :
    checkDupLoop { e with latestCfgLines := L2 } ign dA ps = checkDupLoop e ign dB ps := by
  induction ps with
  | nil => rfl
  | cons p rest ih =>
    rw [checkDupLoop_cons, checkDupLoop_cons, env_update_fs, env_update_pyEval,
      env_update_latestPath]
    cases hres : checkDupLinesToDict e.pyEval (e.fs p) ign with
    | none => rfl
    | some prevRes =>
      cases prevRes with
      | none =>
        dsimp only
        rw [isEmpty_congr h]
      | some dP =>
        dsimp only
        rw [isEmpty_congr h, statusFlagB_congr dP h, ih]

lemma checkDup_congr {V : Type} [DecidableEq V] (e : CheckDupEnv V) (L2 : List Str)
    {dA dB : Dict V}
    (hA : checkDupLinesToDict e.pyEval e.latestCfgLines (e.comparatorLines.map pyStrip)
            = some (some dA))
    (hB : checkDupLinesToDict e.pyEval L2 (e.comparatorLines.map pyStrip)
            = some (some dB))
    (h : MapsIdentical dA dB) :
    checkDup { e with latestCfgLines := L2 } = checkDup e := by
  rw [checkDup_eq, checkDup_eq, env_update_modifyAtm, env_update_comparator,
    env_update_logLines, env_update_latestLines, env_update_pyEval, hA, hB]
  by_cases hAtm : e.modifyAtmExists = true
  · rw [if_pos hAtm, if_pos hAtm]
  · rw [if_neg hAtm, if_neg hAtm]
    by_cases hlen : (e.logLines.filter isCfgPathLine).length = 1
    · rw [if_pos hlen, if_pos hlen]
    · rw [if_neg hlen, if_neg hlen]
      dsimp only
      rw [← isEmpty_congr h]
      by_cases hemp : dA.isEmpty = true
      · rw [if_pos hemp, if_pos hemp]
      · rw [if_neg hemp, if_neg hemp]
        exact checkDupLoop_congr e L2 _ (fun k => (h k).symm) _

lemma linesToDictGo_ne_none {V : Type} (pyEval : Str → Option V) :
    ∀ (lines : List Str) (d : Dict V),
      (∀ l ∈ lines, (splitOnChar '=' l).get? 1 ≠ none) →
      linesToDictGo pyEval lines d ≠ none := by
  intro lines
  induction lines with
  | nil =>
    intro d _
    simp [linesToDictGo]
  | cons l rest ih =>
    intro d h
    have h1 := h l (List.mem_cons_self l rest)
    obtain ⟨vseg, hv⟩ := Option.ne_none_iff_exists'.mp h1
    simp only [linesToDictGo, hv]
    cases h2 : pyEval (pyStrip vseg) with
    | none => simp
    | some v =>
      exact ih _ (fun l' hl' => h l' (List.mem_cons_of_mem _ hl'))

lemma checkDupLinesToDict_ne_none {V : Type} (pyEval : Str → Option V)
    (L ign : List Str) (h : WFLines L) :
    checkDupLinesToDict pyEval L ign ≠ none := by
  unfold checkDupLinesToDict
  have hg := linesToDictGo_ne_none pyEval (processLines L) [] h
  cases hv : linesToDictGo pyEval (processLines L) [] with
  | none => exact absurd hv hg
  | some r => cases r <;> simp

/-- Claim C1, counterexample to the claim as stated: the candidate and the
single recorded prior artifact both parse successfully into
(name -> typedValue) maps, and after removing the ignore-list names the two
maps are identical — yet `checkDup` returns Fresh, not the Reuse pair,
because both maps are empty and Python treats the empty dict as falsy
(`if not latestCfgFileVarDict: return False`). -/
theorem c1_counterexample :
    checkDupLinesToDict evalNat eC1cex.latestCfgLines (eC1cex.comparatorLines.map pyStrip)
        = some (some ([] : Dict Nat))
    ∧ checkDupLinesToDict evalNat (eC1cex.fs ("prior1".data)) (eC1cex.comparatorLines.map pyStrip)
        = some (some ([] : Dict Nat))
    ∧ MapsIdentical ([] : Dict Nat) ([] : Dict Nat)
    ∧ checkDup eC1cex = CheckDupResult.fresh :=
  ⟨by decide, by decide, fun _ => rfl, by decide⟩

/-- Claim C1 (amended): for a candidate artifact and a prior artifact recorded
in the ledger (two `CfgFilePath` events, the earlier naming the prior), both
parsing successfully into maps, with no modify_atm side artifact pending and
the candidate's map non-empty after ignore-list removal: if the two maps are
identical then `checkDup` returns the Reuse pair
`[priorCfgPath, latestCfgPath]`; if they differ in at least one non-ignored
variable then `checkDup` returns Fresh. -/
theorem c1_dedup_pair {V : Type} [DecidableEq V] (e : CheckDupEnv V)
    (l1 l2 p : Str) (dP dL : Dict V)
    (hAtm : e.modifyAtmExists = false)
    (hLog : e.logLines.filter isCfgPathLine = [l1, l2])
    (hp : cfgPathOf l1 = p)
    (hL : checkDupLinesToDict e.pyEval e.latestCfgLines (e.comparatorLines.map pyStrip)
            = some (some dL))
    (hP : checkDupLinesToDict e.pyEval (e.fs p) (e.comparatorLines.map pyStrip)
            = some (some dP))
    (hne : dL ≠ []) :
    (MapsIdentical dP dL → checkDup e = .reuse p e.latestCfgFilePath)
    ∧ (¬ MapsIdentical dP dL → checkDup e = .fresh) := by
  rw [checkDup_two e l1 l2 p dP dL hAtm hLog hp hL hP hne]
  constructor
  · intro h
    rw [if_pos ((statusFlagB_iff dP dL).mpr h)]
  · intro h
    have hf : ¬ statusFlagB dP dL = true := fun hh => h ((statusFlagB_iff dP dL).mp hh)
    rw [if_neg hf]

/-- Witness for claim C1: a concrete two-artifact ledger whose prior matches
the candidate on the non-ignored variable `a` is classified Reuse. -/
theorem c1_dedup_pair_witness :
    checkDup eC1wit = CheckDupResult.reuse ("prior1".data) ("vulcan_cfg.py".data) :=
  (c1_dedup_pair eC1wit ("CfgFilePath: prior1".data) ("CfgFilePath: latest".data)
      ("prior1".data) [("a".data, 1)] [("a".data, 1)]
      (by decide) (by decide) (by decide) (by decide) (by decide) (by decide)).1
    (fun _ => rfl)

/-- Claim C2 (code bug): the spec requires that a prior artifact with an
unparsable literal forces Fresh, but `checkDup` re-tests
`latestCfgFileVarDict` instead of the freshly parsed
`previousCfgFileVarDict`, so the Python `False` reaches
`set(previousCfgFileVarDict.keys())` and raises AttributeError.  At this
concrete state the prior artifact's parse returns Python `False`
(`some none`), the candidate parses fine, and `checkDup` crashes instead of
returning Fresh. -/
theorem c2_failopen_crash :
    checkDupLinesToDict evalNat (eC2.fs ("prior1".data)) (eC2.comparatorLines.map pyStrip)
        = some none
    ∧ checkDupLinesToDict evalNat eC2.latestCfgLines (eC2.comparatorLines.map pyStrip)
        = some (some [("a".data, 1)])
    ∧ checkDup eC2 = CheckDupResult.crash :=
  ⟨by decide, by decide, by decide⟩

/-- Claim C3, counterexample to the `run_num` scenario as stated: the
candidate differs from the recorded prior artifact only in the value of
`run_num`, which is on the ignore-list, yet `checkDup` classifies Fresh
(both artifacts reduce to the empty comparison map, which Python treats as
falsy). -/
theorem c3_counterexample :
    "run_num".data ∈ eC3cex.comparatorLines.map pyStrip
    ∧ checkDupLinesToDict evalNat eC3cex.latestCfgLines (eC3cex.comparatorLines.map pyStrip)
        = some (some ([] : Dict Nat))
    ∧ checkDupLinesToDict evalNat (eC3cex.fs ("prior1".data)) (eC3cex.comparatorLines.map pyStrip)
        = some (some ([] : Dict Nat))
    ∧ checkDup eC3cex = CheckDupResult.fresh :=
  ⟨by decide, by decide, by decide, by decide⟩

/-- Claim C3 (amended): (1) noninterference — two candidate artifacts whose
parsed maps agree after ignore-list removal receive the same `checkDup`
outcome against the same ledger history; (2) the `run_num` scenario — a
candidate that differs from the recorded prior only in the ignored `run_num`
is classified Reuse, provided the artifacts carry at least one non-ignored
variable. -/
theorem c3_ignore_independence :
    (∀ (V : Type) [DecidableEq V] (e : CheckDupEnv V) (L2 : List Str) (dA dB : Dict V),
      checkDupLinesToDict e.pyEval e.latestCfgLines (e.comparatorLines.map pyStrip)
          = some (some dA) →
      checkDupLinesToDict e.pyEval L2 (e.comparatorLines.map pyStrip)
          = some (some dB) →
      MapsIdentical dA dB →
      checkDup { e with latestCfgLines := L2 } = checkDup e)
    ∧ (∀ (V : Type) [DecidableEq V] (e : CheckDupEnv V) (l1 l2 p : Str) (dP dL : Dict V),
      "run_num".data ∈ e.comparatorLines.map pyStrip →
      e.modifyAtmExists = false →
      e.logLines.filter isCfgPathLine = [l1, l2] →
      cfgPathOf l1 = p →
      checkDupLinesToDict e.pyEval e.latestCfgLines (e.comparatorLines.map pyStrip)
          = some (some dL) →
      checkDupLinesToDict e.pyEval (e.fs p) (e.comparatorLines.map pyStrip)
          = some (some dP) →
      MapsIdentical dP dL → dL ≠ [] →
      checkDup e = .reuse p e.latestCfgFilePath) := by
  constructor
  · intro V instV e L2 dA dB hA hB h
    exact checkDup_congr e L2 hA hB h
  · intro V instV e l1 l2 p dP dL hrn hAtm hLog hp hL hP hId hne
    rw [checkDup_two e l1 l2 p dP dL hAtm hLog hp hL hP hne,
      if_pos ((statusFlagB_iff dP dL).mpr hId)]

/-- Witness for claim C3: replacing the candidate's `run_num = 2` line by
`run_num = 9` leaves the outcome unchanged, and the candidate differing from
the recorded prior only in `run_num` is classified Reuse. -/
theorem c3_ignore_witness :
    checkDup { eC3wit with latestCfgLines := ["x = 5".data, "run_num = 9".data] }
        = checkDup eC3wit
    ∧ checkDup eC3wit = CheckDupResult.reuse ("prior1".data) ("vulcan_cfg.py".data) :=
  ⟨c3_ignore_independence.1 Nat eC3wit (["x = 5".data, "run_num = 9".data])
      [("x".data, 5)] [("x".data, 5)] (by decide) (by decide) (fun _ => rfl),
   c3_ignore_independence.2 Nat eC3wit ("CfgFilePath: prior1".data)
      ("CfgFilePath: latest".data) ("prior1".data) [("x".data, 5)] [("x".data, 5)]
      (by decide) (by decide) (by decide) (by decide) (by decide) (by decide)
      (fun _ => rfl) (by decide)⟩

/-- Claim C4 (code bug): when `cfgVulcan` injects an inbound override mapping,
a key containing `Pressure` is translated by `translateHeight(IMPORT, ·)`
(multiplied by 100) rather than by the pressure import conversion
`translatePressure(IMPORT, ·)` (multiplied by 10): the override
`lowerPressure = 1` is written to the modify_atm artifact as `100`, while the
pressure import conversion of `1` is `10`. -/
theorem c4_pressure_import_bug :
    cfgVulcanTranslateOverrides [("lowerPressure".data, (1 : ℚ))] none
        = some [("lowerPressure".data, (100 : ℚ))]
    ∧ translatePressure .IMPORT (1 : ℚ) = 10
    ∧ translateHeight .IMPORT (1 : ℚ) = 100 := by
  have h1 : ¬ ("Height".data <:+: "lowerPressure".data) := by decide
  have h2 : "Pressure".data <:+: "lowerPressure".data := by decide
  refine ⟨?_, ?_, ?_⟩
  · simp [cfgVulcanTranslateOverrides, h1, h2, translateHeight]
  · simp [translatePressure]
  · simp [translateHeight]

/-- Claim C5 (code bug): `generateColumns` ranges both axes over
`atmosphereDim[0]`, so for the world dimensions `(nx, ny) = (1, 2)` it
produces the square grid `['200']` instead of the rectangular grid
`['200', '201']` required by the spec. -/
theorem c5_grid_square_bug :
    generateColumns [1, 2] = [['2', '0', '0']]
    ∧ specGridColumns 1 2 = [['2', '0', '0'], ['2', '0', '1']]
    ∧ generateColumns [1, 2] ≠ specGridColumns 1 2 := by
  decide

/-- Claim C6 (code bug): the column round-trip
`translateCol(IMPORT, translateCol(EXPORT, c))` does not return `c`:
`translateCol(EXPORT, '202')` evaluates to the integer tuple `(2, 0, 2)`,
and `translateCol(IMPORT, (2, 0, 2))` raises TypeError (`''.join` accepts
only strings), modelled here as `none`. -/
theorem c6_column_roundtrip_crash :
    translateCol .EXPORT (.str "202".data) = some (.tup [2, 0, 2])
    ∧ translateCol .IMPORT (.tup [2, 0, 2]) = none := by
  decide

/-- Claim C7: unit round-trips.  For every `h`,
`translateHeight(EXPORT, translateHeight(IMPORT, h)) = h` with import
multiplying by 100 and export dividing by 100, and likewise
`translatePressure(EXPORT, translatePressure(IMPORT, h)) = h` with factor 10
(numbers modelled as exact rationals). -/
theorem c7_unit_roundtrip (h : ℚ) :
    translateHeight .EXPORT (translateHeight .IMPORT h) = h
    ∧ translatePressure .EXPORT (translatePressure .IMPORT h) = h := by
  constructor
  · show h * 100 / 100 = h
    exact mul_div_cancel_right₀ h (by norm_num)
  · show h * 10 / 10 = h
    exact mul_div_cancel_right₀ h (by norm_num)

/-- Witness for claim C7 at `h = 7`. -/
theorem c7_unit_roundtrip_witness :
    translateHeight .EXPORT (translateHeight .IMPORT (7 : ℚ)) = 7
    ∧ translatePressure .EXPORT (translatePressure .IMPORT (7 : ℚ)) = 7 :=
  c7_unit_roundtrip 7

/-- Claim C8, counterexample to the claim as stated: with the last ledger run
event `Run 10-202` (prior generation `g = 10`), the controller computes
`currentRunID = '2-'` — `int(runString[4])` reads a single character — instead
of beginning with `'11-'`. -/
theorem c8_generation_counterexample :
    vulcanOutputRunID ["Run 10-202".data] = some "2-".data
    ∧ "2-".data ≠ "11-".data := by
  decide

/-- Claim C8 (amended): on a non-fresh run, when the last `Run {g}-{column}`
ledger event carries a single-digit generation `g ≤ 9`, the new
`currentRunID` is `'{g+1}-'`, and every per-column run identifier derived
from it begins with `'{g+1}-'`. -/
theorem c8_generation_advance (logLines : List Str) (g : Nat) (col : Str)
    (hg : g ≤ 9)
    (hlast : (logLines.filter isRunLine).getLast?
        = some ("Run ".data ++ natStr g ++ "-".data ++ col)) :
    vulcanOutputRunID logLines = some (natStr (g + 1) ++ ['-'])
    ∧ ∀ column : Str, columnRunID (natStr (g + 1) ++ ['-']) column
        = natStr (g + 1) ++ '-' :: column := by
  constructor
  · unfold vulcanOutputRunID
    rw [hlast]
    interval_cases g <;> rfl
  · intro column
    interval_cases g <;> rfl

/-- Witness for claim C8: the last run event `Run 3-202` advances the
generation to `4-`, and the column run ID keeps that prefix. -/
theorem c8_generation_witness :
    vulcanOutputRunID ["Vulcan full run execute".data, "Run 3-202".data]
        = some (natStr 4 ++ ['-'])
    ∧ columnRunID (natStr 4 ++ ['-']) ("202".data) = natStr 4 ++ '-' :: "202".data := by
  have h := c8_generation_advance ["Vulcan full run execute".data, "Run 3-202".data]
      3 ("202".data) (by norm_num) (by decide)
  exact ⟨h.1, h.2 ("202".data)⟩

/-- Claim C9: `checkDup` returns Fresh whenever fewer than two `CfgFilePath`
events exist in the ledger log (in particular for the first column of a fresh
initial run, whose freshly created ledger holds exactly one such event).  The
candidate artifact is assumed well formed in the sense of the spec's
ConfigArtifact data model (every non-comment line is a `name = value`
assignment). -/
theorem c9_fewer_than_two {V : Type} [DecidableEq V] (e : CheckDupEnv V)
    (hcount : (e.logLines.filter isCfgPathLine).length < 2)
    (hwf : WFLines e.latestCfgLines) :
    checkDup e = .fresh := by
  rw [checkDup_eq]
  by_cases hAtm : e.modifyAtmExists = true
  · rw [if_pos hAtm]
  · rw [if_neg hAtm]
    by_cases hlen : (e.logLines.filter isCfgPathLine).length = 1
    · rw [if_pos hlen]
    · rw [if_neg hlen]
      have hzero : (e.logLines.filter isCfgPathLine).length = 0 := by omega
      have hnil : e.logLines.filter isCfgPathLine = [] := List.length_eq_zero.mp hzero
      rw [hnil]
      cases hres : checkDupLinesToDict e.pyEval e.latestCfgLines (e.comparatorLines.map pyStrip) with
      | none => exact absurd hres (checkDupLinesToDict_ne_none _ _ _ hwf)
      | some r =>
        cases r with
        | none => rfl
        | some dL =>
          dsimp only
          by_cases hemp : dL.isEmpty = true
          · rw [if_pos hemp]
          · rw [if_neg hemp]
            exact checkDupLoop_nil _ _ _

/-- Witness for claim C9: a freshly created ledger containing exactly one
`CfgFilePath` event classifies the first column Fresh. -/
theorem c9_fewer_than_two_witness : checkDup eC9wit = CheckDupResult.fresh :=
  c9_fewer_than_two eC9wit (by decide) (by decide)

set_option maxHeartbeats 1000000 in
lemma c10core : ∀ k x y : Fin 10,
    ((nearestColumns (colEnc k x y)).isSome = true
      ∧ colEnc k x y ∉ (nearestColumns (colEnc k x y)).getD []
      ∧ ((nearestColumns (colEnc k x y)).getD []).length ≤ 4)
      ∧ ∀ n ∈ (nearestColumns (colEnc k x y)).getD [], n ∈ specAdjacent k x y := by
  decide

/-- Claim C10: for every three-character column ID with single-digit
coordinates, `nearestColumns` succeeds, never contains the column itself,
holds at most four entries, and contains only the axis-adjacent IDs obtained
by a unit step in exactly one axis with no negative coordinate; consequently
the MISTRA export neighbour set (the intersection with the latest run's
columns) never contains the column itself either. -/
theorem c10_neighbors_exclude_self (k x y : Fin 10) (latest : List Str) :
    (nearestColumns (colEnc k x y)).isSome = true
    ∧ colEnc k x y ∉ (nearestColumns (colEnc k x y)).getD []
    ∧ ((nearestColumns (colEnc k x y)).getD []).length ≤ 4
    ∧ (∀ n ∈ (nearestColumns (colEnc k x y)).getD [], n ∈ specAdjacent k x y)
    ∧ colEnc k x y ∉ mistraNeighborSet ((nearestColumns (colEnc k x y)).getD []) latest := by
  obtain ⟨⟨h1, h2, h3⟩, h4⟩ := c10core k x y
  refine ⟨h1, h2, h3, h4, ?_⟩
  intro hmem
  have hmem2 := (List.mem_filter.mp hmem).1
  exact h2 (List.mem_dedup.mp hmem2)

/-- Witness for claim C10 at the centre column `212` of a 3x3 grid. -/
theorem c10_neighbors_witness :
    colEnc 2 1 2 ∉ (nearestColumns (colEnc 2 1 2)).getD []
    ∧ colEnc 2 1 2 ∉ mistraNeighborSet ((nearestColumns (colEnc 2 1 2)).getD [])
        ["202".data, "212".data, "222".data] :=
  ⟨(c10_neighbors_exclude_self 2 1 2 ["202".data, "212".data, "222".data]).2.1,
   (c10_neighbors_exclude_self 2 1 2 ["202".data, "212".data, "222".data]).2.2.2.2⟩
